import Mathlib

/-!
Shallow embedding of `pkg/scalers/kubernetes_workload_scaler.go` from the
KEDA repository, together with theorems settling the specification claims
about the Kubernetes-workload scaler.

Modelling conventions:
* Go errors are modelled by their message `String`; fallible Go functions
  returning `(T, error)` become `Except String T` when the success value is
  meaningless on failure, and explicit pairs when the Go code returns a
  definite value alongside the error (as `IsActive` and `GetMetrics` do).
* The external Kubernetes client (`client.Client`) is modelled as a function
  from the list options the scaler builds to the outcome of the listing
  query; each adapter call receives it as a parameter.
* The external label-selector library (`k8s.io/apimachinery/pkg/labels`) is
  abstracted: a parsed selector is represented by its canonical string
  (the result of the Go `String()` method), and `labels.Parse` is a
  parameter of `parseWorkloadMetadata`.
* `metav1.Now()` (real time) is modelled as an explicit `now` parameter.
-/

/-- A parsed label selector (`labels.Selector`), abstracted by the canonical
string its Go `String()` method returns. -/
structure Selector where
  str : String
  deriving DecidableEq, Repr

/-- `corev1.PodStatus`, restricted to the only field the scaler reads. The Go
`PodPhase` type is a string type, so the phase is a `String`. -/
structure PodStatus where
  phase : String
  deriving DecidableEq, Repr

/-- `corev1.Pod`, restricted to the only field the scaler reads. -/
structure Pod where
  status : PodStatus
  deriving DecidableEq, Repr

/-- `var countIgnoresPhases = []corev1.PodPhase{PodSucceeded, PodFailed, PodUnknown}`. -/
def countIgnoresPhases : List String :=
  ["Succeeded", "Failed", "Unknown"]

/-- The loop inside `getCountValue`: scan the ignore list, returning `true`
on the first phase equal to the pod's phase. -/
def phaseHits (phase : String) : List String → Bool
  | [] => false
  | ignore :: rest => if phase = ignore then true else phaseHits phase rest

/-- `getCountValue(pod corev1.Pod) int`: 0 if the pod's phase is one of the
ignored phases, 1 otherwise. -/
def getCountValue (pod : Pod) : Nat :=
  if phaseHits pod.status.phase countIgnoresPhases then 0 else 1

/-- `kubernetesWorkloadMetadata`. `nspace` stands for the Go field
`namespace` (a Lean keyword). -/
structure kubernetesWorkloadMetadata where
  podSelector : Selector
  nspace : String
  value : Int
  scalerIndex : Nat
  deriving DecidableEq, Repr

/-- `client.ListOptions` as the scaler builds them in `getMetricValue`. -/
structure ListOptions where
  labelSelector : Selector
  nspace : String
  deriving DecidableEq, Repr

/-- The external cluster client: the outcome of `kubeClient.List` for given
list options, returning either an error or the pod items. -/
def KubeClient : Type :=
  ListOptions → Except String (List Pod)

/-- `getMetricValue`: issues the scoped listing query and sums
`getCountValue` over the returned pods, starting from 0; on a query error
it returns the error unchanged. -/
def getMetricValue (kubeClient : KubeClient) (s : kubernetesWorkloadMetadata) :
    Except String Nat :=
  match kubeClient ⟨s.podSelector, s.nspace⟩ with
  | Except.error e => Except.error e
  | Except.ok podList =>
      Except.ok (podList.foldl (fun count pod => count + getCountValue pod) 0)

/-- `IsActive`: returns `(false, err)` on a query error and
`(pods > 0, nil)` otherwise. The `Option String` is the Go error value. -/
def IsActive (kubeClient : KubeClient) (s : kubernetesWorkloadMetadata) :
    Bool × Option String :=
  match getMetricValue kubeClient s with
  | Except.error e => (false, some e)
  | Except.ok pods => (decide (0 < pods), none)

/-- `external_metrics.ExternalMetricValue`, restricted to the fields the
scaler sets. -/
structure ExternalMetricValue where
  metricName : String
  value : Int
  timestamp : Nat
  deriving DecidableEq, Repr

/-- `GetMetrics`: re-runs the count; on error it returns an empty sample
list together with the error wrapped as
`"error inspecting kubernetes workload: " ++ e`; on success it returns a
single sample carrying the requested metric name, the count and the current
timestamp. The `metricSelector` argument is accepted and never used, as in
the Go code. -/
def GetMetrics (kubeClient : KubeClient) (s : kubernetesWorkloadMetadata)
    (metricName : String) (metricSelector : Option Selector) (now : Nat) :
    List ExternalMetricValue × Option String :=
  match getMetricValue kubeClient s with
  | Except.error e =>
      ([], some ("error inspecting kubernetes workload: " ++ e))
  | Except.ok pods =>
      ([{ metricName := metricName, value := Int.ofNat pods, timestamp := now }], none)

/-- `ScalerConfig`, restricted to the fields `parseWorkloadMetadata` reads.
`triggerMetadata` is the Go `map[string]string`; `nspace` stands for the Go
field `Namespace`. -/
structure ScalerConfig where
  triggerMetadata : List (String × String)
  nspace : String
  scalerIndex : Nat

/-- Reading a Go `map[string]string`: a missing key yields the zero value
`""`. -/
def lookupMeta (m : List (String × String)) (k : String) : String :=
  match m.lookup k with
  | some v => v
  | none => ""

/-- Decimal value of a digit run, as `strconv.ParseInt` accumulates it:
`none` if any character is not an ASCII digit. -/
def decAccum : Option Nat → Char → Option Nat
  | none, _ => none
  | some acc, c => if c.isDigit then some (acc * 10 + (c.toNat - 48)) else none

/-- Decimal value of a nonempty all-digit character list; `none` on an empty
list or a non-digit character. -/
def decValue (cs : List Char) : Option Nat :=
  match cs with
  | [] => none
  | _ :: _ => cs.foldl decAccum (some 0)

/-- `strconv.ParseInt(s, 10, 64)`: optional leading sign, then a nonempty
run of ASCII digits, value required to fit in a signed 64-bit integer.
`none` models a non-nil error. -/
def parseInt64 (s : String) : Option Int :=
  match s.data with
  | [] => none
  | c :: rest =>
    if c = '-' then
      match decValue rest with
      | none => none
      | some m => if m ≤ 2 ^ 63 then some (-(m : Int)) else none
    else if c = '+' then
      match decValue rest with
      | none => none
      | some m => if m ≤ 2 ^ 63 - 1 then some (m : Int) else none
    else
      match decValue s.data with
      | none => none
      | some m => if m ≤ 2 ^ 63 - 1 then some (m : Int) else none

/-- `parseWorkloadMetadata`, parameterised by the external `labels.Parse`
(`labelsParse`). Mirrors the Go checks: the selector parse must succeed and
its canonical string must be nonempty; the value must parse as a base-10
64-bit integer and (per the Go condition `meta.value == 0`) be nonzero. -/
def parseWorkloadMetadata (labelsParse : String → Except String Selector)
    (config : ScalerConfig) : Except String kubernetesWorkloadMetadata :=
  match labelsParse (lookupMeta config.triggerMetadata "podSelector") with
  | Except.error _ => Except.error "invalid pod selector"
  | Except.ok sel =>
    if sel.str = "" then Except.error "invalid pod selector"
    else
      match parseInt64 (lookupMeta config.triggerMetadata "value") with
      | none => Except.error "value must be an integer greater than 0"
      | some v =>
        if v = 0 then Except.error "value must be an integer greater than 0"
        else Except.ok ⟨sel, config.nspace, v, config.scalerIndex⟩

/-- `NewKubernetesWorkloadScaler`: wraps the metadata parse error; on
success the scaler holds exactly the parsed metadata. -/
def NewKubernetesWorkloadScaler (labelsParse : String → Except String Selector)
    (config : ScalerConfig) : Except String kubernetesWorkloadMetadata :=
  match parseWorkloadMetadata labelsParse config with
  | Except.error e =>
      Except.error ("error parsing kubernetes workload metadata: " ++ e)
  | Except.ok meta => Except.ok meta

/-- Modelled from the spec: `kedautil.NormalizeString` (in `pkg/util`, not
under `src/`) normalizes a string for use in a metric identifier by
stripping the characters illegal in one; legal characters are ASCII letters,
digits and dashes. -/
def NormalizeString (s : String) : String :=
  String.mk (s.data.filter (fun c => c.isAlphanum || c = '-'))

/-- Little-endian decimal digit characters of a positive number; `[]` for 0. -/
def decDigitsRev : Nat → List Char
  | 0 => []
  | n + 1 =>
      Char.ofNat (48 + (n + 1) % 10) :: decDigitsRev ((n + 1) / 10)
decreasing_by exact Nat.div_lt_self (Nat.succ_pos n) (by omega)

/-- Decimal rendering of a natural number, as Go `fmt.Sprintf("%d", n)`
renders a non-negative integer. -/
def decRepr (n : Nat) : String :=
  if n = 0 then "0" else String.mk (decDigitsRev n).reverse

/-- Modelled from the spec: `GenerateMetricNameWithIndex` (in
`pkg/scalers`, not under `src/`) composes the metric identifier
`{scalerIndex}-{metricName}`, giving `{scalerIndex}-workload-{normalizedNamespace}`
for the caller-supplied name `workload-{normalizedNamespace}`. -/
def GenerateMetricNameWithIndex (scalerIndex : Nat) (metricName : String) : String :=
  decRepr scalerIndex ++ "-" ++ metricName

/-- `v2beta2.MetricIdentifier`, restricted to the field the scaler sets. -/
structure MetricIdentifier where
  name : String
  deriving DecidableEq, Repr

/-- `v2beta2.MetricTarget`, restricted to the fields the scaler sets; the
average value is the decimal integer quantity built from the target value. -/
structure MetricTarget where
  targetType : String
  averageValue : Int
  deriving DecidableEq, Repr

/-- `v2beta2.ExternalMetricSource`. -/
structure ExternalMetricSource where
  metric : MetricIdentifier
  target : MetricTarget
  deriving DecidableEq, Repr

/-- `v2beta2.MetricSpec`, restricted to the fields the scaler sets. -/
structure MetricSpec where
  external : ExternalMetricSource
  specType : String
  deriving DecidableEq, Repr

/-- `GetMetricSpecForScaling`: one external metric spec whose name is
`GenerateMetricNameWithIndex(scalerIndex, NormalizeString("workload-" + namespace))`
and whose target is the average-value quantity of the configured value. -/
def GetMetricSpecForScaling (s : kubernetesWorkloadMetadata) : List MetricSpec :=
  [{ external :=
      { metric :=
          { name := GenerateMetricNameWithIndex s.scalerIndex
              (NormalizeString ("workload-" ++ s.nspace)) }
        target := { targetType := "AverageValue", averageValue := s.value } }
     specType := "External" }]

/-! ### Concrete fixtures used by witnesses and counterexamples -/

/-- Decoder for little-endian decimal digit characters; left inverse of
`decDigitsRev`. -/
def decodeRev : List Char → Nat
  | [] => 0
  | c :: cs => (c.toNat - 48) + 10 * decodeRev cs

/-- Pods with the five phases of the spec's worked example. -/
def wPods : List Pod :=
  [⟨⟨"Running"⟩⟩, ⟨⟨"Pending"⟩⟩, ⟨⟨"Succeeded"⟩⟩, ⟨⟨"Failed"⟩⟩, ⟨⟨"Unknown"⟩⟩]

/-- A concrete descriptor. -/
def wMeta : kubernetesWorkloadMetadata :=
  ⟨⟨"app=demo"⟩, "default", 1, 0⟩

/-- A client whose listing query always succeeds with `wPods`. -/
def wClientOk : KubeClient := fun _ => Except.ok wPods

/-- A client whose listing query always fails with message "boom". -/
def wClientErr : KubeClient := fun _ => Except.error "boom"

/-- A selector parse that always succeeds, echoing the input as the
canonical string. -/
def okParse : String → Except String Selector := fun str => Except.ok ⟨str⟩

/-- A selector parse that always returns the empty/always-true selector,
whose canonical string is empty — the behaviour of `labels.Parse` on the
empty input. -/
def emptyOkParse : String → Except String Selector := fun _ => Except.ok ⟨""⟩

/-! ### Helper lemmas -/

theorem phaseHits_iff (phase : String) (l : List String) :
    phaseHits phase l = true ↔ phase ∈ l := by
  induction l with
  | nil => simp [phaseHits]
  | cons a rest ih =>
      by_cases h : phase = a <;> simp [phaseHits, h, ih]

theorem getCountValue_eq (pod : Pod) :
    getCountValue pod = if pod.status.phase ∈ countIgnoresPhases then 0 else 1 := by
  unfold getCountValue
  by_cases h : pod.status.phase ∈ countIgnoresPhases
  · simp [h, (phaseHits_iff pod.status.phase countIgnoresPhases).mpr h]
  · have : phaseHits pod.status.phase countIgnoresPhases = false := by
      rcases hb : phaseHits pod.status.phase countIgnoresPhases with _ | _
      · rfl
      · exact absurd ((phaseHits_iff _ _).mp hb) h
    simp [h, this]

theorem foldl_getCountValue (pods : List Pod) (acc : Nat) :
    pods.foldl (fun count pod => count + getCountValue pod) acc =
      acc + pods.countP (fun p => decide (p.status.phase ∉ countIgnoresPhases)) := by
  induction pods generalizing acc with
  | nil => simp
  | cons p ps ih =>
      rw [List.foldl_cons, ih, List.countP_cons, getCountValue_eq]
      by_cases h : p.status.phase ∈ countIgnoresPhases <;> simp [h] <;> omega

theorem decodeRev_decDigitsRev : ∀ n, decodeRev (decDigitsRev n) = n := by
  intro n
  induction n using Nat.strong_induction_on with
  | _ n ih =>
    match n with
    | 0 => simp [decDigitsRev, decodeRev]
    | m + 1 =>
      rw [decDigitsRev, decodeRev,
        ih ((m + 1) / 10) (Nat.div_lt_self (Nat.succ_pos m) (by omega))]
      have hr : (m + 1) % 10 < 10 := Nat.mod_lt _ (by omega)
      have hchar : (Char.ofNat (48 + (m + 1) % 10)).toNat - 48 = (m + 1) % 10 := by
        generalize (m + 1) % 10 = r at hr
        interval_cases r <;> decide
      rw [hchar, Nat.mod_add_div]

theorem decDigitsRev_inj {a b : Nat} (h : decDigitsRev a = decDigitsRev b) :
    a = b := by
  have ha := decodeRev_decDigitsRev a
  have hb := decodeRev_decDigitsRev b
  rw [h, hb] at ha
  exact ha.symm

theorem decRepr_inj {a b : Nat} (h : decRepr a = decRepr b) : a = b := by
  unfold decRepr at h
  by_cases ha : a = 0 <;> by_cases hb : b = 0
  · exact ha.trans hb.symm
  · rw [if_pos ha, if_neg hb] at h
    have hdata : ['0'] = (decDigitsRev b).reverse := congrArg String.data h
    have hdb : decDigitsRev b = ['0'] := by
      have := congrArg List.reverse hdata
      simpa using this.symm
    have hb0 : b = 0 := by
      have hd := decodeRev_decDigitsRev b
      rw [hdb] at hd
      simpa [decodeRev] using hd.symm
    exact absurd hb0 hb
  · rw [if_neg ha, if_pos hb] at h
    have hdata : (decDigitsRev a).reverse = ['0'] := congrArg String.data h
    have hda : decDigitsRev a = ['0'] := by
      have := congrArg List.reverse hdata
      simpa using this
    have ha0 : a = 0 := by
      have hd := decodeRev_decDigitsRev a
      rw [hda] at hd
      simpa [decodeRev] using hd.symm
    exact absurd ha0 ha
  · rw [if_neg ha, if_neg hb] at h
    have hdata : (decDigitsRev a).reverse = (decDigitsRev b).reverse :=
      congrArg String.data h
    exact decDigitsRev_inj (List.reverse_injective hdata)

theorem normalize_workload_append (ns : String) :
    NormalizeString ("workload-" ++ ns) = "workload-" ++ NormalizeString ns := by
  apply String.ext
  show List.filter (fun c => c.isAlphanum || decide (c = '-'))
      (("workload-" ++ ns).data) =
    "workload-".data ++
      List.filter (fun c => c.isAlphanum || decide (c = '-')) ns.data
  rw [String.data_append, List.filter_append]
  rfl

theorem append_dash (a N : String) :
    a ++ "-" ++ ("workload-" ++ N) = a ++ "-workload-" ++ N := by
  have h : ("-" : String) ++ "workload-" = "-workload-" := rfl
  rw [String.append_assoc, String.append_assoc, ← String.append_assoc "-", h]

theorem metricSpecName_eq (s : kubernetesWorkloadMetadata) :
    (GetMetricSpecForScaling s).map (fun sp => sp.external.metric.name) =
      [decRepr s.scalerIndex ++ "-workload-" ++ NormalizeString s.nspace] := by
  simp only [GetMetricSpecForScaling, List.map_cons, List.map_nil,
    GenerateMetricNameWithIndex, normalize_workload_append]
  rw [append_dash]

/-! ### Claims -/

/-- C1: for every pod list returned by the cluster query, `getMetricValue`
returns exactly the number of pods whose phase is not in
{Succeeded, Failed, Unknown}; each pod in that set contributes 0 and every
other pod (any other phase, including the empty phase) contributes 1. -/
theorem C1_getMetricValue_counts_active (kubeClient : KubeClient)
    (s : kubernetesWorkloadMetadata) (pods : List Pod)
    (h : kubeClient ⟨s.podSelector, s.nspace⟩ = Except.ok pods) :
    getMetricValue kubeClient s =
      Except.ok (pods.countP (fun p =>
        decide (p.status.phase ∉ (["Succeeded", "Failed", "Unknown"] : List String)))) := by
  unfold getMetricValue
  rw [h]
  show Except.ok (pods.foldl (fun count pod => count + getCountValue pod) 0) = _
  rw [foldl_getCountValue]
  simp [countIgnoresPhases]

/-- Witness for C1: the spec's worked example — phases
[Running, Pending, Succeeded, Failed, Unknown] yield count 2. -/
theorem C1_getMetricValue_counts_active_witness :
    getMetricValue wClientOk wMeta = Except.ok 2 :=
  (C1_getMetricValue_counts_active wClientOk wMeta wPods rfl).trans
    (congrArg Except.ok (by decide))

/-- C2: the claim says every non-positive `value` is rejected, but the Go
check is `err != nil || meta.value == 0`: the negative value "-3" parses
and is nonzero, so a descriptor with `value = -3` is produced — contradicting
the code's own error message "value must be an integer greater than 0". -/
theorem C2_negative_value_accepted :
    parseWorkloadMetadata okParse
        { triggerMetadata := [("podSelector", "app=demo"), ("value", "-3")],
          nspace := "default", scalerIndex := 0 } =
      Except.ok { podSelector := ⟨"app=demo"⟩, nspace := "default",
                  value := -3, scalerIndex := 0 } := by
  rfl

/-- Counterexample to C3 as stated: the underlying query fails with "boom",
yet `GetMetrics` does not return that error value unchanged. -/
theorem C3_counterexample :
    wClientErr ⟨wMeta.podSelector, wMeta.nspace⟩ = Except.error "boom" ∧
    (GetMetrics wClientErr wMeta "metric" none 0).snd ≠ some "boom" :=
  ⟨rfl, by decide⟩

/-- C3 (amended): `IsActive` returns the query error unchanged (with
`false`), while `GetMetrics` returns it wrapped with the prefix
"error inspecting kubernetes workload: ". -/
theorem C3_error_propagation (kubeClient : KubeClient)
    (s : kubernetesWorkloadMetadata) (e name : String) (msel : Option Selector)
    (now : Nat) (h : kubeClient ⟨s.podSelector, s.nspace⟩ = Except.error e) :
    IsActive kubeClient s = (false, some e) ∧
    GetMetrics kubeClient s name msel now =
      ([], some ("error inspecting kubernetes workload: " ++ e)) := by
  unfold IsActive GetMetrics getMetricValue
  rw [h]
  exact ⟨rfl, rfl⟩

/-- Witness for C3 (amended), at the failing client `wClientErr`. -/
theorem C3_error_propagation_witness :
    IsActive wClientErr wMeta = (false, some "boom") ∧
    GetMetrics wClientErr wMeta "metric" none 0 =
      ([], some ("error inspecting kubernetes workload: " ++ "boom")) :=
  C3_error_propagation wClientErr wMeta "boom" "metric" none 0 rfl

/-- C4: whenever the count succeeds, `IsActive` returns `true` exactly when
the active count is strictly positive. -/
theorem C4_isActive_iff_positive (kubeClient : KubeClient)
    (s : kubernetesWorkloadMetadata) (n : Nat)
    (h : getMetricValue kubeClient s = Except.ok n) :
    (IsActive kubeClient s).fst = true ↔ 0 < n := by
  unfold IsActive
  rw [h]
  simp

/-- Witness for C4: two active pods make the scaler active. -/
theorem C4_isActive_iff_positive_witness :
    (IsActive wClientOk wMeta).fst = true :=
  (C4_isActive_iff_positive wClientOk wMeta 2 rfl).mpr (by omega)

/-- C5: the metric name produced by `GetMetricSpecForScaling` is
`{scalerIndex}-workload-{normalizedNamespace}` (spec-modelled name
composition and normalization). -/
theorem C5_metric_name (s : kubernetesWorkloadMetadata) :
    (GetMetricSpecForScaling s).map (fun sp => sp.external.metric.name) =
      [decRepr s.scalerIndex ++ "-workload-" ++ NormalizeString s.nspace] :=
  metricSpecName_eq s

/-- C6: `GetMetrics` labels its sample with exactly the requested metric
name, and its result does not depend on the selector argument. -/
theorem C6_requested_name_selector_ignored (kubeClient : KubeClient)
    (s : kubernetesWorkloadMetadata) (name : String)
    (sel1 sel2 : Option Selector) (now : Nat) :
    GetMetrics kubeClient s name sel1 now = GetMetrics kubeClient s name sel2 now ∧
    ∀ m ∈ (GetMetrics kubeClient s name sel1 now).fst, m.metricName = name := by
  refine ⟨rfl, ?_⟩
  unfold GetMetrics
  cases h : getMetricValue kubeClient s with
  | error e => simp
  | ok pods => simp

/-- Witness for C6: the single sample of a successful call carries the
requested name, whatever selector is passed. -/
theorem C6_requested_name_selector_ignored_witness :
    ({ metricName := "requested", value := Int.ofNat 2, timestamp := 7 } :
      ExternalMetricValue).metricName = "requested" :=
  (C6_requested_name_selector_ignored wClientOk wMeta "requested"
      (some ⟨"ignored=yes"⟩) none 7).2 _ (by decide)

/-- C7: `GetMetricSpecForScaling` is pure and deterministic, and two
descriptors differing only in `scalerIndex` produce distinct metric names. -/
theorem C7_spec_deterministic_index_injective :
    (∀ s : kubernetesWorkloadMetadata,
        GetMetricSpecForScaling s = GetMetricSpecForScaling s) ∧
    (∀ s1 s2 : kubernetesWorkloadMetadata,
        s1.podSelector = s2.podSelector → s1.nspace = s2.nspace →
        s1.value = s2.value → s1.scalerIndex ≠ s2.scalerIndex →
        (GetMetricSpecForScaling s1).map (fun sp => sp.external.metric.name) ≠
          (GetMetricSpecForScaling s2).map (fun sp => sp.external.metric.name)) := by
  refine ⟨fun s => rfl, fun s1 s2 hsel hns hval hidx hEq => ?_⟩
  rw [metricSpecName_eq, metricSpecName_eq, hns] at hEq
  have h1 : decRepr s1.scalerIndex ++ "-workload-" ++ NormalizeString s2.nspace =
      decRepr s2.scalerIndex ++ "-workload-" ++ NormalizeString s2.nspace := by
    simpa using hEq
  have hd := congrArg String.data h1
  rw [String.data_append, String.data_append, String.data_append,
    String.data_append] at hd
  have step1 := (List.append_inj' hd rfl).1
  have step2 := (List.append_inj' step1 rfl).1
  exact hidx (decRepr_inj (String.ext step2))

/-- Witness for C7: indices 0 and 1 on otherwise identical descriptors give
different metric names. -/
theorem C7_spec_deterministic_index_injective_witness :
    (GetMetricSpecForScaling ⟨⟨"app=demo"⟩, "ns", 1, 0⟩).map
        (fun sp => sp.external.metric.name) ≠
      (GetMetricSpecForScaling ⟨⟨"app=demo"⟩, "ns", 1, 1⟩).map
        (fun sp => sp.external.metric.name) :=
  C7_spec_deterministic_index_injective.2 _ _ rfl rfl rfl (by decide)

/-- C8: a selector whose parse fails, or whose canonical string is empty
(the always-true selector, which is also what a missing key's empty string
parses to), makes `parseWorkloadMetadata` fail, and no scaler is built. -/
theorem C8_selector_rejection (labelsParse : String → Except String Selector)
    (config : ScalerConfig) :
    (config.triggerMetadata.lookup "podSelector" = none →
      lookupMeta config.triggerMetadata "podSelector" = "") ∧
    ((∃ e, labelsParse (lookupMeta config.triggerMetadata "podSelector") =
        Except.error e) ∨
      (∃ sel, labelsParse (lookupMeta config.triggerMetadata "podSelector") =
        Except.ok sel ∧ sel.str = "") →
      parseWorkloadMetadata labelsParse config =
        Except.error "invalid pod selector" ∧
      NewKubernetesWorkloadScaler labelsParse config =
        Except.error
          "error parsing kubernetes workload metadata: invalid pod selector") := by
  constructor
  · intro h
    unfold lookupMeta
    rw [h]
  · intro h
    have hp : parseWorkloadMetadata labelsParse config =
        Except.error "invalid pod selector" := by
      unfold parseWorkloadMetadata
      rcases h with ⟨e, he⟩ | ⟨sel, hsel, hstr⟩
      · rw [he]
      · rw [hsel]
        simp [hstr]
    refine ⟨hp, ?_⟩
    unfold NewKubernetesWorkloadScaler
    rw [hp]
    rfl

/-- Witness for C8: the missing-selector configuration (empty trigger
metadata), with the parse sending "" to the always-true selector. -/
theorem C8_selector_rejection_witness :
    parseWorkloadMetadata emptyOkParse ⟨[], "default", 0⟩ =
      Except.error "invalid pod selector" ∧
    NewKubernetesWorkloadScaler emptyOkParse ⟨[], "default", 0⟩ =
      Except.error
        "error parsing kubernetes workload metadata: invalid pod selector" :=
  (C8_selector_rejection emptyOkParse ⟨[], "default", 0⟩).2
    (Or.inr ⟨⟨""⟩, rfl, rfl⟩)

/-- C9: on a query failure `IsActive` returns `false` together with that
error, and it never returns `true` alongside an error. -/
theorem C9_isActive_false_on_error (kubeClient : KubeClient)
    (s : kubernetesWorkloadMetadata) :
    (∀ e, kubeClient ⟨s.podSelector, s.nspace⟩ = Except.error e →
      IsActive kubeClient s = (false, some e)) ∧
    (∀ e, (IsActive kubeClient s).snd = some e →
      (IsActive kubeClient s).fst = false) := by
  constructor
  · intro e he
    unfold IsActive getMetricValue
    rw [he]
  · intro e he
    unfold IsActive at he ⊢
    cases h : getMetricValue kubeClient s with
    | error e2 => rfl
    | ok n =>
        rw [h] at he
        simp at he

/-- Witness for C9, at the failing client `wClientErr`. -/
theorem C9_isActive_false_on_error_witness :
    IsActive wClientErr wMeta = (false, some "boom") :=
  (C9_isActive_false_on_error wClientErr wMeta).1 "boom" rfl

/-- C10: a successful query yields exactly one sample; a failed query
yields an empty sample list. -/
theorem C10_sample_list_length (kubeClient : KubeClient)
    (s : kubernetesWorkloadMetadata) (name : String) (msel : Option Selector)
    (now : Nat) :
    (∀ pods, kubeClient ⟨s.podSelector, s.nspace⟩ = Except.ok pods →
      (GetMetrics kubeClient s name msel now).fst.length = 1) ∧
    (∀ e, kubeClient ⟨s.podSelector, s.nspace⟩ = Except.error e →
      (GetMetrics kubeClient s name msel now).fst.length = 0) := by
  constructor
  · intro pods h
    unfold GetMetrics getMetricValue
    rw [h]
    rfl
  · intro e h
    unfold GetMetrics getMetricValue
    rw [h]
    rfl

/-- Witness for C10: one sample on success, none on failure. -/
theorem C10_sample_list_length_witness :
    (GetMetrics wClientOk wMeta "m" none 0).fst.length = 1 ∧
    (GetMetrics wClientErr wMeta "m" none 0).fst.length = 0 :=
  ⟨(C10_sample_list_length wClientOk wMeta "m" none 0).1 wPods rfl,
   (C10_sample_list_length wClientErr wMeta "m" none 0).2 "boom" rfl⟩
